import Mathlib

/-!
Shallow embedding of `src/bridge.rs` from `poanetwork/edge_bridge`
(a Substrate runtime module attesting cross-chain deposits).

Modelling choices, each tied to the source:

* `T::AccountId`, `T::Hash`, `T::Balance` are generic associated types in the
  source; they are instantiated with `Nat` here.  `DepositIndex` is concretely
  `u32` in the source, so the `DepositCount` counter is kept below `2 ^ 32` and
  its increment `*i += 1` wraps modulo `2 ^ 32` (release-profile Rust wraps on
  unsigned overflow).
* Storage maps (`DepositOf`, `AuthorityStake`) become functions; the
  `Authorities` storage value is a list, as in the source (`Vec<T::AccountId>`).
* The approval check calls `VoteThreshold::SuperMajorityApprove.approved(stake_sum,
  Zero::zero(), total_issuance)` from the external `srml_democracy` crate with
  the "against" argument hardcoded to zero; it is modelled as an abstract
  boolean policy `approved : Balance → Balance → Bool` applied to the stake sum
  and the total issuance.
* `increase_free_balance_creating` from the external `srml_balances` crate adds
  the quantity to the target's free balance; it is modelled as a pointwise
  update of the `balances` function.
* `ensure_signed(origin)` authenticates the caller; the embedding takes the
  already-authenticated `sender` directly.
* `ensure!` in the source returns an `Err` before any storage write on that
  path; the embedding returns the untouched state paired with the error,
  mirroring that every check precedes every write.
* The module declares an event type and the `deposit_event` default dispatcher
  but the `deposit` body never deposits an event; the `events` field of the
  state records emitted events and is therefore never touched by `deposit`.
* `withdraw` is `unimplemented!()`, a panic: its outcome type distinguishes a
  panic from an ordinary error return.
-/

namespace EdgeBridge

abbrev AccountId := Nat
abbrev Hash := Nat
abbrev Balance := Nat

/-- `DepositIndex` is `u32` in the source. -/
abbrev DepositIndex := Nat

/-- A deposit record, stored in `DepositOf` as the tuple
`(DepositIndex, T::AccountId, T::Balance, Vec<T::AccountId>)`; field names
follow the binders `(inx, tgt, qty, signers)` used in the source match. -/
structure DepositRecord where
  inx : DepositIndex
  tgt : AccountId
  qty : Balance
  signers : List AccountId
deriving Repr, DecidableEq

/-- The error messages produced by the four `ensure!` checks in `deposit`,
in source order: "Accounts do not match", "Quantities don't match",
"Invalid non-authority sender", "Invalid duplicate deposit signings". -/
inductive DepositError
  | mismatchedTarget
  | mismatchedAmount
  | notAnAuthority
  | duplicateSigner
deriving Repr, DecidableEq

/-- The event type from `decl_event!`: `Deposit(AccountId, Hash, Balance)` and
`Withdraw(AccountId, Balance)`. -/
inductive Event
  | deposit (who : AccountId) (txHash : Hash) (amount : Balance)
  | withdraw (who : AccountId) (amount : Balance)
deriving Repr, DecidableEq

/-- The storage touched by the module, together with the externally owned
balance ledger and the stream of emitted events.  Storage items the `deposit`
and `withdraw` bodies never read or write (`BlockHeaders`, `Deposits`,
`TotalAuthorityStake`, `StakeThreshold`, the withdraw tables) are omitted. -/
structure State where
  /-- `Authorities get(authorities): Vec<T::AccountId>` -/
  authorities : List AccountId
  /-- `AuthorityStake get(authority_stake): map T::AccountId => T::Balance`
  (a Substrate map defaults to zero for absent keys) -/
  authorityStake : AccountId → Balance
  /-- `<balances::Module<T>>::total_issuance()` (external) -/
  totalIssuance : Balance
  /-- `DepositCount get(deposit_count): u32`; kept below `2 ^ 32` -/
  depositCount : Nat
  /-- `DepositOf get(deposit_of): map T::Hash => Option<(DepositIndex,
  T::AccountId, T::Balance, Vec<T::AccountId>)>` -/
  depositOf : Hash → Option DepositRecord
  /-- free balances of the external `srml_balances` ledger -/
  balances : AccountId → Balance
  /-- events deposited by this module (none ever are) -/
  events : List Event

/-- `new_signers.iter().map(|s| <AuthorityStake<T>>::get(s)).fold(Zero::zero(), |a,b| a + b)` -/
def stakeSum (stake : AccountId → Balance) (signers : List AccountId) : Balance :=
  (signers.map stake).foldl (fun a b => a + b) 0

/-- The body of `pub fn deposit(origin, target, tx_hash, quantity)`.

Returns the storage state after the call together with `some` error when an
`ensure!` failed (in the source the `Err` propagates before any write on that
path, so the state returned with an error is the input state) and `none` on
the `Ok(())` paths. -/
def deposit (approved : Balance → Balance → Bool) (s : State)
    (sender target : AccountId) (txHash : Hash) (quantity : Balance) :
    State × Option DepositError :=
  match s.depositOf txHash with
  | some r =>
    -- ensure!(tgt == target.clone(), "Accounts do not match")
    if r.tgt = target then
      -- ensure!(qty == quantity, "Quantities don't match")
      if r.qty = quantity then
        -- ensure!(Self::authorities().iter().any(|id| id == &_sender), ...)
        if sender ∈ s.authorities then
          -- ensure!(!signers.iter().any(|id| id == &_sender), ...)
          if sender ∈ r.signers then
            (s, some .duplicateSigner)
          else
            -- new_signers.push(_sender); <DepositOf<T>>::insert(tx_hash, ...)
            let newSigners := r.signers ++ [sender]
            let s₁ : State := { s with
              depositOf := fun h =>
                if h = txHash then some ⟨r.inx, r.tgt, r.qty, newSigners⟩
                else s.depositOf h }
            -- stake_sum over the new signers, then the approval check
            let sum := stakeSum s.authorityStake newSigners
            if approved sum s.totalIssuance then
              -- <balances::Module<T>>::increase_free_balance_creating(&tgt, qty)
              ({ s₁ with balances := fun a =>
                  if a = r.tgt then s₁.balances a + r.qty else s₁.balances a },
               none)
            else
              (s₁, none)
        else (s, some .notAnAuthority)
      else (s, some .mismatchedAmount)
    else (s, some .mismatchedTarget)
  | none =>
    -- let index = Self::deposit_count(); <DepositCount<T>>::mutate(|i| *i += 1)
    let index := s.depositCount
    -- if <Authorities<T>>::get().iter().any(|a| a == &_sender) { signers.push(_sender) }
    let signers : List AccountId := if sender ∈ s.authorities then [sender] else []
    ({ s with
        depositCount := (s.depositCount + 1) % 2 ^ 32,
        depositOf := fun h =>
          if h = txHash then some ⟨index, target, quantity, signers⟩
          else s.depositOf h },
     none)

/-- Outcome of `withdraw`: either a normal return with the resulting state, an
error return, or a panic aborting the call (`unimplemented!()` panics). -/
inductive WithdrawOutcome
  | ok (s : State)
  | error (msg : String)
  | panics (msg : String)

/-- The body of `pub fn withdraw(origin, target, quantity)`: `unimplemented!()`. -/
def withdraw (_s : State) (_sender _target : AccountId) (_quantity : Balance) :
    WithdrawOutcome :=
  .panics "not implemented"

/-- A concrete approval policy satisfying the spec's `ApprovalPolicy` contract
(monotone in the affirmative stake, rejects zero stake against positive
issuance, approves full issuance): a strict two-thirds supermajority of total
issuance.  Used to instantiate the abstract policy on concrete runs. -/
def superMajority (affirmative total : Balance) : Bool :=
  decide (2 * total < 3 * affirmative)

/-- A concrete starting state: authorities `1`, `2`, `3` with stakes `40`,
`30`, `20`, total issuance `100`, no deposits, empty ledger. -/
def s₀ : State where
  authorities := [1, 2, 3]
  authorityStake := fun a => if a = 1 then 40 else if a = 2 then 30 else if a = 3 then 20 else 0
  totalIssuance := 100
  depositCount := 0
  depositOf := fun _ => none
  balances := fun _ => 0
  events := []

/-- State after authority `1` creates the record for transaction `7`
(target `9`, amount `100`): signers `[1]`, stake sum `40`, not approved. -/
def sClaim₁ : State := (deposit superMajority s₀ 1 9 7 100).1

/-- State after authority `2` also claims transaction `7`: signers `[1, 2]`,
stake sum `70 > 2/3 · 100`, so the target is credited. -/
def sClaim₂ : State := (deposit superMajority sClaim₁ 2 9 7 100).1

/-- State after authority `3` also claims transaction `7`: signers
`[1, 2, 3]`, stake sum `90`, still above threshold. -/
def sClaim₃ : State := (deposit superMajority sClaim₂ 3 9 7 100).1

/-- C1: after quorum is first reached on a record (second claim, stake
`70 > 2/3 · 100`, target `9` credited with the amount `100`), a later accepted
claim on the same record triggers the credit again: the third claim is
accepted and the target's balance becomes `200`, twice the record's amount.
The source has no settled flag, so the credit side effect is not exactly-once. -/
theorem deposit_credits_twice :
    (deposit superMajority sClaim₁ 2 9 7 100).2 = none ∧
    sClaim₂.balances 9 = 100 ∧
    (deposit superMajority sClaim₂ 3 9 7 100).2 = none ∧
    sClaim₃.balances 9 = 200 := by
  refine ⟨by decide, by decide, by decide, by decide⟩

/-- C2: whenever `deposit` returns an error (any of the four `ensure!`
failures), the resulting state is exactly the input state — no partial
mutation of the deposit map, the counter, the authority tables, the balances
or the events is visible. -/
theorem deposit_error_leaves_state_unchanged
    (approved : Balance → Balance → Bool) (s : State)
    (sender target : AccountId) (txHash : Hash) (quantity : Balance)
    (e : DepositError)
    (he : (deposit approved s sender target txHash quantity).2 = some e) :
    (deposit approved s sender target txHash quantity).1 = s := by
  rcases hd : s.depositOf txHash with _ | r <;>
    simp only [deposit, hd] at he ⊢
  · simp at he
  · split_ifs at he ⊢ <;> simp_all [apply_ite]

/-- Witness for C2 at a concrete input: with the record for transaction `7`
stored as target `9`, a claim naming target `8` fails with
`MismatchedTarget` and the state is unchanged. -/
theorem deposit_error_leaves_state_unchanged_witness :
    (deposit superMajority sClaim₁ 1 8 7 100).2 = some .mismatchedTarget ∧
    (deposit superMajority sClaim₁ 1 8 7 100).1 = sClaim₁ :=
  ⟨by decide,
   deposit_error_leaves_state_unchanged superMajority sClaim₁ 1 8 7 100
     .mismatchedTarget (by decide)⟩

/-- C4: when no record exists for the transaction hash, `deposit` always
succeeds and creates a record with the current deposit count as its index,
the given target and amount, and a signer list that is exactly `[sender]`
when the sender is a current authority and empty otherwise. -/
theorem deposit_fresh_creates_record
    (approved : Balance → Balance → Bool) (s : State)
    (sender target : AccountId) (txHash : Hash) (quantity : Balance)
    (hn : s.depositOf txHash = none) :
    (deposit approved s sender target txHash quantity).2 = none ∧
    (deposit approved s sender target txHash quantity).1.depositOf txHash =
      some ⟨s.depositCount, target, quantity,
            if sender ∈ s.authorities then [sender] else []⟩ := by
  unfold deposit
  rw [hn]
  simp

/-- Witness for C4 at a concrete input: the non-authority caller `5` creates
the record for transaction `7` in the empty state; the record gets index `0`,
the given target and amount, and an empty signer list. -/
theorem deposit_fresh_creates_record_witness :
    s₀.depositOf 7 = none ∧
    (deposit superMajority s₀ 5 9 7 100).2 = none ∧
    (deposit superMajority s₀ 5 9 7 100).1.depositOf 7 =
      some ⟨0, 9, 100, []⟩ := by
  refine ⟨rfl, ?_, ?_⟩
  · exact (deposit_fresh_creates_record superMajority s₀ 5 9 7 100 rfl).1
  · have h := (deposit_fresh_creates_record superMajority s₀ 5 9 7 100 rfl).2
    simpa [s₀] using h

/-- C8: an accepted deposit claim emits no event at all: the claim that
created the record for transaction `7` succeeded, yet the event list is
still empty (the source declares the `Deposit` event but never deposits it). -/
theorem deposit_emits_no_event :
    (deposit superMajority s₀ 1 9 7 100).2 = none ∧
    (deposit superMajority s₀ 1 9 7 100).1.events = [] ∧
    (deposit superMajority sClaim₁ 2 9 7 100).2 = none ∧
    (deposit superMajority sClaim₁ 2 9 7 100).1.events = [] := by
  refine ⟨by decide, by decide, by decide, by decide⟩

/-- C9 counterexample: at a concrete input, `withdraw` panics (the body is
`unimplemented!()`), rather than returning an `Unimplemented` error; this is
panicking behavior, which the claim rules out. -/
theorem withdraw_panics_at_concrete_input :
    withdraw s₀ 1 2 3 = WithdrawOutcome.panics "not implemented" := rfl

/-- C9 amended: for every input, `withdraw` panics with "not implemented":
it never succeeds and never commits any state change, but the failure is a
panic aborting the call, not an ordinary error return. -/
theorem withdraw_always_panics (s : State) (sender target : AccountId)
    (quantity : Balance) :
    withdraw s sender target quantity = WithdrawOutcome.panics "not implemented" :=
  rfl

/-- C10: a `deposit` call that creates a new record never evaluates the
approval policy (the outcome is the same for any two policies) and never
credits the target (the balance ledger is unchanged), whatever the creating
caller's stake. -/
theorem deposit_create_skips_approval_and_credit
    (approved₁ approved₂ : Balance → Balance → Bool) (s : State)
    (sender target : AccountId) (txHash : Hash) (quantity : Balance)
    (hn : s.depositOf txHash = none) :
    deposit approved₁ s sender target txHash quantity =
      deposit approved₂ s sender target txHash quantity ∧
    (deposit approved₁ s sender target txHash quantity).1.balances = s.balances := by
  unfold deposit
  rw [hn]
  exact ⟨rfl, rfl⟩

/-- Witness for C10 at a concrete input: authority `1` has stake `40`; make
the policy approve any positive stake, and the record-creating call still
leaves every balance unchanged and agrees with the same call under the
never-approving policy. -/
theorem deposit_create_skips_approval_and_credit_witness :
    s₀.depositOf 7 = none ∧
    deposit (fun a _ => decide (0 < a)) s₀ 1 9 7 100 =
      deposit (fun _ _ => false) s₀ 1 9 7 100 ∧
    (deposit (fun a _ => decide (0 < a)) s₀ 1 9 7 100).1.balances = s₀.balances :=
  ⟨rfl, (deposit_create_skips_approval_and_credit (fun a _ => decide (0 < a))
          (fun _ _ => false) s₀ 1 9 7 100 rfl).1,
        (deposit_create_skips_approval_and_credit (fun a _ => decide (0 < a))
          (fun _ _ => false) s₀ 1 9 7 100 rfl).2⟩

/-- C3: on an existing record the four checks fire in source order —
`MismatchedTarget` iff the claimed target differs from the stored one;
otherwise `MismatchedAmount` iff the claimed amount differs; otherwise
`NotAnAuthority` iff the caller is not a current authority; otherwise
`DuplicateSigner` iff the caller already signed; otherwise the claim
succeeds and appends the caller to the signer list. -/
theorem deposit_existing_record_cases
    (approved : Balance → Balance → Bool) (s : State)
    (sender target : AccountId) (txHash : Hash) (quantity : Balance)
    (r : DepositRecord) (hr : s.depositOf txHash = some r) :
    ((deposit approved s sender target txHash quantity).2 = some .mismatchedTarget ↔
      r.tgt ≠ target) ∧
    ((deposit approved s sender target txHash quantity).2 = some .mismatchedAmount ↔
      (r.tgt = target ∧ r.qty ≠ quantity)) ∧
    ((deposit approved s sender target txHash quantity).2 = some .notAnAuthority ↔
      (r.tgt = target ∧ r.qty = quantity ∧ sender ∉ s.authorities)) ∧
    ((deposit approved s sender target txHash quantity).2 = some .duplicateSigner ↔
      (r.tgt = target ∧ r.qty = quantity ∧ sender ∈ s.authorities ∧ sender ∈ r.signers)) ∧
    ((deposit approved s sender target txHash quantity).2 = none ↔
      (r.tgt = target ∧ r.qty = quantity ∧ sender ∈ s.authorities ∧ sender ∉ r.signers)) ∧
    ((deposit approved s sender target txHash quantity).2 = none →
      (deposit approved s sender target txHash quantity).1.depositOf txHash =
        some ⟨r.inx, r.tgt, r.qty, r.signers ++ [sender]⟩) := by
  simp only [deposit, hr]
  split_ifs <;> simp_all [apply_ite]

/-- Witness for C3 at a concrete input: transaction `7` is stored as
`(index 0, target 9, amount 100, signers [1])`; a matching claim by the
fresh authority `2` is accepted. -/
theorem deposit_existing_record_cases_witness :
    sClaim₁.depositOf 7 = some ⟨0, 9, 100, [1]⟩ ∧
    ((deposit superMajority sClaim₁ 2 9 7 100).2 = none ↔
      ((9 : AccountId) = 9 ∧ (100 : Balance) = 100 ∧
        2 ∈ sClaim₁.authorities ∧ 2 ∉ ([1] : List AccountId))) :=
  ⟨by decide,
   (deposit_existing_record_cases superMajority sClaim₁ 2 9 7 100
     ⟨0, 9, 100, [1]⟩ (by decide)).2.2.2.2.1⟩

/-- C5: the stored target and amount are immutable — on an existing record,
a claim carrying a different target or amount is rejected, and whatever the
call does, the record kept under the transaction hash still has the original
target and amount. -/
theorem deposit_target_amount_immutable
    (approved : Balance → Balance → Bool) (s : State)
    (sender target : AccountId) (txHash : Hash) (quantity : Balance)
    (r : DepositRecord) (hr : s.depositOf txHash = some r) :
    ((r.tgt ≠ target ∨ r.qty ≠ quantity) →
      (deposit approved s sender target txHash quantity).2 ≠ none) ∧
    (∀ r', (deposit approved s sender target txHash quantity).1.depositOf txHash = some r' →
      r'.tgt = r.tgt ∧ r'.qty = r.qty) := by
  simp only [deposit, hr]
  split_ifs <;> simp_all [apply_ite]

/-- Witness for C5 at a concrete input: against the stored record
`(0, 9, 100, [1])` for transaction `7`, a claim naming target `8` is
rejected. -/
theorem deposit_target_amount_immutable_witness :
    sClaim₁.depositOf 7 = some ⟨0, 9, 100, [1]⟩ ∧
    (((9 : AccountId) ≠ 8 ∨ (100 : Balance) ≠ 100) →
      (deposit superMajority sClaim₁ 1 8 7 100).2 ≠ none) :=
  ⟨by decide,
   (deposit_target_amount_immutable superMajority sClaim₁ 1 8 7 100
     ⟨0, 9, 100, [1]⟩ (by decide)).1⟩

/-- C6: signer uniqueness is preserved — if no record of the state has a
duplicate signer, then after any `deposit` call, every record's signer
list is still duplicate-free. -/
theorem deposit_preserves_signer_nodup
    (approved : Balance → Balance → Bool) (s : State)
    (sender target : AccountId) (txHash : Hash) (quantity : Balance)
    (h : Hash) (r : DepositRecord)
    (hs : ∀ h' r', s.depositOf h' = some r' → r'.signers.Nodup)
    (hr : (deposit approved s sender target txHash quantity).1.depositOf h = some r) :
    r.signers.Nodup := by
  rcases hd : s.depositOf txHash with _ | r₀ <;> simp only [deposit, hd] at hr
  · by_cases hh : h = txHash
    · subst hh
      simp at hr
      subst hr
      simp only []
      split <;> simp
    · simp [hh] at hr
      exact hs h r hr
  · split_ifs at hr with h1 h2 h3 h4 h5 <;>
      first
        | exact hs h r hr
        | (by_cases hh : h = txHash
           · subst hh
             simp at hr
             subst hr
             simp only [List.nodup_append]
             refine ⟨hs _ r₀ hd, by simp, ?_⟩
             simp [List.disjoint_singleton]
             exact h4
           · simp [hh] at hr
             exact hs h r hr)

/-- Witness for C6 at a concrete input: the empty state trivially has no
duplicate signer, and the record created for transaction `7` by authority `1`
has the duplicate-free signer list `[1]`. -/
theorem deposit_preserves_signer_nodup_witness :
    (∀ h' r', s₀.depositOf h' = some r' → r'.signers.Nodup) ∧
    (deposit superMajority s₀ 1 9 7 100).1.depositOf 7 = some ⟨0, 9, 100, [1]⟩ ∧
    (DepositRecord.signers ⟨0, 9, 100, [1]⟩).Nodup :=
  ⟨fun _ _ hh => Option.noConfusion hh, by decide,
   deposit_preserves_signer_nodup superMajority s₀ 1 9 7 100 7 ⟨0, 9, 100, [1]⟩
     (fun _ _ hh => Option.noConfusion hh) (by decide)⟩

/-- A state one record creation away from wrapping the `u32` counter
`DepositCount`. -/
def sWrap : State := { s₀ with depositCount := 2 ^ 32 - 1 }

/-- C7 counterexample: with the deposit count at `2 ^ 32 - 1` (the value
after `2 ^ 32 - 1` creations), creating one more record succeeds with index
`2 ^ 32 - 1`, but the count wraps to `0` instead of increasing by one —
`*i += 1` on a `u32` wraps — after which freshly created records reuse the
small indices. -/
theorem deposit_count_wraps :
    sWrap.depositOf 7 = none ∧
    (deposit superMajority sWrap 1 9 7 100).2 = none ∧
    (deposit superMajority sWrap 1 9 7 100).1.depositOf 7 =
      some ⟨2 ^ 32 - 1, 9, 100, [1]⟩ ∧
    (deposit superMajority sWrap 1 9 7 100).1.depositCount = 0 ∧
    sWrap.depositCount + 1 = 2 ^ 32 := by
  refine ⟨rfl, rfl, by decide, by decide, by decide⟩

/-- C7 amended: each created record receives the current deposit count as
its index and the count advances by one modulo `2 ^ 32`; as long as the
32-bit counter does not overflow (here: `depositCount + 1 < 2 ^ 32`), the
count strictly increases by one per creation, every stored index stays below
the count, and distinct records keep distinct indices. -/
theorem deposit_index_unique_without_wrap
    (approved : Balance → Balance → Bool) (s : State)
    (sender target : AccountId) (txHash : Hash) (quantity : Balance)
    (hbound : ∀ h r, s.depositOf h = some r → r.inx < s.depositCount)
    (hinj : ∀ h₁ h₂ r₁ r₂, s.depositOf h₁ = some r₁ → s.depositOf h₂ = some r₂ →
      r₁.inx = r₂.inx → h₁ = h₂)
    (hcnt : s.depositCount + 1 < 2 ^ 32) :
    (s.depositOf txHash = none →
      (deposit approved s sender target txHash quantity).1.depositCount = s.depositCount + 1 ∧
      ∃ r, (deposit approved s sender target txHash quantity).1.depositOf txHash = some r ∧
        r.inx = s.depositCount) ∧
    (∀ h r, (deposit approved s sender target txHash quantity).1.depositOf h = some r →
      r.inx < (deposit approved s sender target txHash quantity).1.depositCount) ∧
    (∀ h₁ h₂ r₁ r₂,
      (deposit approved s sender target txHash quantity).1.depositOf h₁ = some r₁ →
      (deposit approved s sender target txHash quantity).1.depositOf h₂ = some r₂ →
      r₁.inx = r₂.inx → h₁ = h₂) := by
  rcases hd : s.depositOf txHash with _ | r₀
  · have hcount' : (deposit approved s sender target txHash quantity).1.depositCount =
        s.depositCount + 1 := by
      simp only [deposit, hd]
      exact Nat.mod_eq_of_lt hcnt
    have hof : ∀ h, (deposit approved s sender target txHash quantity).1.depositOf h =
        if h = txHash then
          some ⟨s.depositCount, target, quantity,
            if sender ∈ s.authorities then [sender] else []⟩
        else s.depositOf h := by
      intro h
      simp only [deposit, hd]
    refine ⟨fun _ => ⟨hcount',
      ⟨⟨s.depositCount, target, quantity, if sender ∈ s.authorities then [sender] else []⟩,
       by rw [hof]; simp, rfl⟩⟩, ?_, ?_⟩
    · intro h r hr
      rw [hof] at hr
      rw [hcount']
      by_cases hh : h = txHash
      · rw [if_pos hh] at hr
        cases hr
        exact Nat.lt_succ_self _
      · rw [if_neg hh] at hr
        exact Nat.lt_succ_of_lt (hbound h r hr)
    · intro h₁ h₂ r₁ r₂ h₁r h₂r heq
      rw [hof] at h₁r h₂r
      by_cases e₁ : h₁ = txHash <;> by_cases e₂ : h₂ = txHash
      · exact e₁.trans e₂.symm
      · rw [if_pos e₁] at h₁r
        rw [if_neg e₂] at h₂r
        cases h₁r
        exact absurd (heq ▸ hbound h₂ r₂ h₂r) (by simp)
      · rw [if_neg e₁] at h₁r
        rw [if_pos e₂] at h₂r
        cases h₂r
        exact absurd (heq ▸ hbound h₁ r₁ h₁r) (by simp)
      · rw [if_neg e₁] at h₁r
        rw [if_neg e₂] at h₂r
        exact hinj h₁ h₂ r₁ r₂ h₁r h₂r heq
  · have hcount' : (deposit approved s sender target txHash quantity).1.depositCount =
        s.depositCount := by
      simp only [deposit, hd]
      split_ifs <;> rfl
    have hof : ∀ h r, (deposit approved s sender target txHash quantity).1.depositOf h = some r →
        ∃ r'', s.depositOf h = some r'' ∧ r.inx = r''.inx := by
      intro h r hr
      simp only [deposit, hd] at hr
      split_ifs at hr <;>
        first
          | exact ⟨r, hr, rfl⟩
          | (by_cases hh : h = txHash
             · subst hh
               simp at hr
               subst hr
               exact ⟨r₀, hd, rfl⟩
             · simp [hh] at hr
               exact ⟨r, hr, rfl⟩)
    refine ⟨fun hn => Option.noConfusion hn, ?_, ?_⟩
    · intro h r hr
      obtain ⟨r'', h'', heq⟩ := hof h r hr
      rw [hcount', heq]
      exact hbound h r'' h''
    · intro h₁ h₂ r₁ r₂ h₁r h₂r heq
      obtain ⟨ra, ha, hea⟩ := hof h₁ r₁ h₁r
      obtain ⟨rb, hb, heb⟩ := hof h₂ r₂ h₂r
      exact hinj h₁ h₂ ra rb ha hb (by rw [← hea, ← heb, heq])

/-- Witness for C7 (amended) at a concrete input: the empty state satisfies
both index invariants and its counter is far from overflow; creating the
record for transaction `7` bumps the count to `1` and assigns index `0`. -/
theorem deposit_index_unique_without_wrap_witness :
    s₀.depositCount + 1 < 2 ^ 32 ∧
    (s₀.depositOf 7 = none →
      (deposit superMajority s₀ 1 9 7 100).1.depositCount = s₀.depositCount + 1 ∧
      ∃ r, (deposit superMajority s₀ 1 9 7 100).1.depositOf 7 = some r ∧
        r.inx = s₀.depositCount) :=
  ⟨by decide,
   (deposit_index_unique_without_wrap superMajority s₀ 1 9 7 100
     (fun _ _ hh => Option.noConfusion hh)
     (fun _ _ _ _ hh _ _ => Option.noConfusion hh)
     (by decide)).1⟩

end EdgeBridge
